import Mathlib

/-!
Shallow embedding of LibElectron (src/Environment.h, src/Environment.cc), a C++
wrapper over the CLIPS rule engine.  Pure wrapper logic is translated directly;
engine primitives (EnvFunctionCall, EnvLoad, EvaluateExpression, interning) are
modelled as explicit oracle inputs, since the engine is an external collaborator
specified only at the boundary.
-/

namespace Neutron

/-- Problem (Environment.h lines 45-63): the single exception type of the
wrapper; every error is a Problem carrying a message string. -/
structure Problem where
  message : String
deriving DecidableEq

/-- CLIPS primitive type tag FLOAT (constant.h, mirrored by DataObjectType). -/
def FLOAT : Nat := 0
/-- CLIPS primitive type tag INTEGER. -/
def INTEGER : Nat := 1
/-- CLIPS primitive type tag SYMBOL. -/
def SYMBOL : Nat := 2
/-- CLIPS primitive type tag STRING. -/
def STRING : Nat := 3
/-- CLIPS primitive type tag MULTIFIELD. -/
def MULTIFIELD : Nat := 4
/-- CLIPS primitive type tag EXTERNAL_ADDRESS. -/
def EXTERNAL_ADDRESS : Nat := 5
/-- CLIPS primitive type tag FACT_ADDRESS. -/
def FACT_ADDRESS : Nat := 6
/-- CLIPS primitive type tag INSTANCE_ADDRESS. -/
def INSTANCE_ADDRESS : Nat := 7
/-- CLIPS primitive type tag INSTANCE_NAME. -/
def INSTANCE_NAME : Nat := 8

/-- Payload of an expression node or data object: the engine interns symbols,
strings, integers and doubles into hash nodes, so pointer equality of interned
values coincides with content equality; we therefore carry the contents.
Address-like payloads (external address nodes and other raw pointers) are
carried as a numeric address.  Doubles are opaque bit tokens: the wrapper never
inspects them. -/
inductive CVal where
  | sym (s : String)
  | int (n : Int)
  | flt (bits : Nat)
  | ptr (a : Nat)
deriving DecidableEq

/-- EnvTrueSymbol: the interned TRUE symbol of the engine. -/
def trueSymbol : CVal := CVal.sym "TRUE"

/-- EnvFalseSymbol: the interned FALSE symbol of the engine. -/
def falseSymbol : CVal := CVal.sym "FALSE"

/-- DATA_OBJECT (Environment.h line 65): discriminant tag, value slot, and a
begin/end range used only for multifields. -/
structure DataObject where
  type : Nat
  value : CVal
  mfBegin : Nat
  mfEnd : Nat
deriving DecidableEq

/-- ValueToString / DOPToString: read the character contents of a symbol,
string or instance-name hash node.  On a payload of another kind the C macro
would reinterpret memory; that case is never reached on well-typed nodes and is
given a junk default here. -/
def valueToString : CVal → String
  | CVal.sym s => s
  | _ => ""

/-- DOPToInteger / DOPToLong: read an integer hash node. -/
def valueToInt : CVal → Int
  | CVal.int n => n
  | _ => 0

/-- DOPToDouble: read a double hash node (opaque bit token). -/
def valueToFlt : CVal → Nat
  | CVal.flt b => b
  | _ => 0

/-- Reading a payload as a raw pointer, as the diagnostic renderer does when it
streams args->value in hexadecimal.  Interned payloads have engine-internal
addresses not modelled here; well-typed address-tagged nodes carry ptr. -/
def valueAddr : CVal → Nat
  | CVal.ptr a => a
  | _ => 0

/-- Hexadecimal rendering of an address, lowercase and without leading zeros,
modelling stream << std::hex applied to a pointer value. -/
def hexOfNat (n : Nat) : String := String.mk (Nat.toDigits 16 n)

/-- EXPRESSION (expression node): a type tag, a payload, and the nextArg link
of the singly linked argument chain.  Links are modelled as indices into an
explicit heap so that the in-place tail-pointer update of the source is
represented faithfully. -/
structure ExprNode where
  type : Nat
  value : CVal
  nextArg : Option Nat
deriving DecidableEq

/-- FunctionBuilder fields (Environment.h lines 210-216): the target function
name, the argument-list head pointer of the FUNCTION_REFERENCE, the tracked
tail pointer curr, and the functionReferenceSet flag. -/
structure FunctionBuilder where
  functionName : String
  refArgList : Option Nat
  curr : Option Nat
  functionReferenceSet : Bool
deriving DecidableEq

/-- Builder state together with the expression-node heap it allocates into and
the trace of node ids registered via installExpression. -/
structure BuildState where
  heap : List ExprNode
  fb : FunctionBuilder
  installs : List Nat
deriving DecidableEq

/-- FunctionBuilder constructor (Environment.cc line 361): curr is null and no
function reference is set.  The C++ leaves the FUNCTION_REFERENCE _ref
indeterminate until setFunctionReference runs (Environment.h line 213 has no
initializer and the constructor sets only env); the empty reference here is
one possible content of that indeterminate memory, and suffices for the
guarded operations that throw before ever reading _ref.  Statements about the
destructor of an unbound builder must use unboundBuilder instead, which keeps
the indeterminate reference general. -/
def FunctionBuilder.init : BuildState :=
  { heap := []
    fb := { functionName := ""
            refArgList := none
            curr := none
            functionReferenceSet := false }
    installs := [] }

/-- Builder that is constructed but never bound, with the indeterminate
FUNCTION_REFERENCE the source really has: until setFunctionReference runs,
the argument-list head and the curr pointer of _ref hold arbitrary junk, and
the junk parameters give one possible content of that indeterminate memory.
The engineHeap parameter holds expression nodes owned by the engine, not by
this builder: the builder installed nothing (its install trace is empty). -/
def unboundBuilder (engineHeap : List ExprNode)
    (junkArgList junkCurr : Option Nat) : BuildState :=
  { heap := engineHeap
    fb := { functionName := ""
            refArgList := junkArgList
            curr := junkCurr
            functionReferenceSet := false }
    installs := [] }

/-- Message thrown by installArgument before a function is set
(Environment.cc line 400); the BuilderMisuseError of the spec. -/
def builderMisuseArgsMsg : String :=
  "ERROR: Attempted to build an argument list before setting the target function!"

/-- Message thrown by invoke before a function is set (Environment.cc
line 450); the BuilderMisuseError of the spec. -/
def builderMisuseInvokeMsg : String :=
  "ERROR: attempted to invoke a function builder without setting its function!"

/-- Message thrown by setFunctionReference when the engine cannot resolve the
name (Environment.cc lines 376-379); the UnknownFunctionError of the spec. -/
def unknownFunctionMsg (f : String) : String :=
  "Function " ++ f ++ " does not exist!!!!"

/-- FunctionBuilder::setFunctionReference (Environment.cc lines 372-384).  The
resolve oracle models generateFunctionExpression, that is whether
GetFunctionReference can resolve the name; on success the reference is filled
in with a null argument list and the flag is set, on failure the builder is
left untouched because the throw happens before any assignment. -/
def setFunctionReference (resolve : String → Bool) (st : BuildState)
    (func : String) : Except Problem BuildState :=
  if resolve func then
    Except.ok { st with fb := { st.fb with
                                functionName := func
                                functionReferenceSet := true
                                refArgList := none } }
  else
    Except.error (Problem.mk (unknownFunctionMsg func))

/-- Replacement of the nextArg field of the node at index c, modelling the
in-place pointer write curr->nextArg = tmp of the source. -/
def setNextArg : List ExprNode → Nat → Nat → List ExprNode
  | [], _, _ => []
  | n :: rest, 0, id => { n with nextArg := some id } :: rest
  | n :: rest, Nat.succ c, id => n :: setNextArg rest c id

/-- FunctionBuilder::installArgument (Environment.cc lines 386-402): if the
function reference is set, generate a constant node (GenConstant, null
nextArg), install it with the engine memory manager, and append it to the
chain, either as the head (also setting curr) or by the tail-pointer write
curr->nextArg followed by advancing curr.  Otherwise throw.  The branch where
refArgList is set but curr is null is unreachable from this interface (the C++
would dereference a null pointer there). -/
def installArgument (st : BuildState) (ty : Nat) (v : CVal) :
    Except Problem BuildState :=
  if st.fb.functionReferenceSet then
    let id := st.heap.length
    let heap1 := st.heap ++ [{ type := ty, value := v, nextArg := none }]
    let installs1 := st.installs ++ [id]
    match st.fb.refArgList with
    | none =>
      Except.ok { heap := heap1
                  fb := { st.fb with refArgList := some id, curr := some id }
                  installs := installs1 }
    | some _ =>
      match st.fb.curr with
      | some c =>
        Except.ok { heap := setNextArg heap1 c id
                    fb := { st.fb with curr := some id }
                    installs := installs1 }
      | none =>
        Except.ok { heap := heap1
                    fb := { st.fb with curr := some id }
                    installs := installs1 }
  else
    Except.error (Problem.mk builderMisuseArgsMsg)

/-- Host values accepted by the scalar addArgument overloads (Environment.cc
lines 410-444 and 505-509).  Floats are opaque bit tokens of the double they
are converted to. -/
inductive HostArg where
  | bool (b : Bool)
  | i64 (n : Int)
  | i32 (n : Int)
  | f64 (bits : Nat)
  | f32 (bits : Nat)
  | str (s : String)
deriving DecidableEq

/-- Conversion performed by each scalar addArgument overload: booleans become
the engine TRUE/FALSE symbols under SYMBOL, integers are interned under
INTEGER, floating values under FLOAT, and character data is interned via
addSymbol under STRING. -/
def convertArg : HostArg → Nat × CVal
  | HostArg.bool b => (SYMBOL, if b then trueSymbol else falseSymbol)
  | HostArg.i64 n => (INTEGER, CVal.int n)
  | HostArg.i32 n => (INTEGER, CVal.int n)
  | HostArg.f64 bits => (FLOAT, CVal.flt bits)
  | HostArg.f32 bits => (FLOAT, CVal.flt bits)
  | HostArg.str s => (STRING, CVal.sym s)

/-- Scalar addArgument overloads: each converts its value and delegates to
installArgument, exactly as in the source. -/
def addArgumentHost (st : BuildState) (a : HostArg) : Except Problem BuildState :=
  installArgument st (convertArg a).1 (convertArg a).2

mutual
/-- Argument shapes accepted by addArgument: a scalar, or an ordered sequence
(std::list, std::vector, std::initializer_list, or a variadic pack), possibly
nested. -/
inductive Arg where
  | scalar (a : HostArg)
  | seq (l : ArgList)
/-- Ordered sequence of arguments. -/
inductive ArgList where
  | nil
  | cons (head : Arg) (tail : ArgList)
end

mutual
/-- addArgument on one argument: a scalar goes through its overload, a
sequence is iterated element by element in order (the range-for loops of the
container overloads and the recursion of the variadic overload). -/
def addArg (st : BuildState) : Arg → Except Problem BuildState
  | Arg.scalar a => addArgumentHost st a
  | Arg.seq l => addArgs st l
/-- Iteration of addArgument over a sequence in order, stopping at the first
thrown Problem. -/
def addArgs (st : BuildState) : ArgList → Except Problem BuildState
  | ArgList.nil => Except.ok st
  | ArgList.cons t rest =>
    match addArg st t with
    | Except.ok st1 => addArgs st1 rest
    | Except.error p => Except.error p
end

mutual
/-- Recursive flattening of an argument shape into the scalar elements in
iteration order. -/
def flattenArg : Arg → List HostArg
  | Arg.scalar a => [a]
  | Arg.seq l => flattenArgs l
/-- Recursive flattening of a sequence of argument shapes. -/
def flattenArgs : ArgList → List HostArg
  | ArgList.nil => []
  | ArgList.cons t rest => flattenArg t ++ flattenArgs rest
end

/-- Sequence holding the given scalars in order, used to state that adding a
sequence equals adding each element in iteration order. -/
def scalarSeq : List HostArg → ArgList
  | [] => ArgList.nil
  | a :: rest => ArgList.cons (Arg.scalar a) (scalarSeq rest)

/-- Layout of a constant-argument chain in the heap when the first node sits at
index i: every node points to the next index and the last node has a null
nextArg. -/
def layoutNodes : List (Nat × CVal) → Nat → List ExprNode
  | [], _ => []
  | a :: [], _ => [{ type := a.1, value := a.2, nextArg := none }]
  | a :: b :: rest, i =>
    { type := a.1, value := a.2, nextArg := some (i + 1) }
      :: layoutNodes (b :: rest) (i + 1)

/-- Chain layout paired with the heap index of each node. -/
def layoutChain : List (Nat × CVal) → Nat → List (Nat × ExprNode)
  | [], _ => []
  | a :: [], i => [(i, { type := a.1, value := a.2, nextArg := none })]
  | a :: b :: rest, i =>
    (i, { type := a.1, value := a.2, nextArg := some (i + 1) })
      :: layoutChain (b :: rest) (i + 1)

/-- State of a builder whose function reference has been set to fn and whose
chain holds exactly the given (type, value) constants, laid out sequentially
from heap index 0; curr points at the last node and the install trace lists
every allocated id once, in order. -/
def builtState (fn : String) (args : List (Nat × CVal)) : BuildState :=
  { heap := layoutNodes args 0
    fb := { functionName := fn
            refArgList := if args.isEmpty then none else some 0
            curr := if args.isEmpty then none else some (args.length - 1)
            functionReferenceSet := true }
    installs := List.range args.length }

/-- Walk of the nextArg chain starting at a head pointer, fuelled by the heap
size; returns each visited node with its id.  A null pointer, a dangling
pointer or exhausted fuel ends the walk. -/
def chainFrom (h : List ExprNode) : Nat → Option Nat → List (Nat × ExprNode)
  | _, none => []
  | 0, some _ => []
  | Nat.succ fuel, some i =>
    match h.get? i with
    | none => []
    | some n => (i, n) :: chainFrom h fuel n.nextArg

/-- The (type, value) contents of the argument chain of a builder state, in
chain order. -/
def chainVals (st : BuildState) : List (Nat × CVal) :=
  (chainFrom st.heap st.heap.length st.fb.refArgList).map
    (fun p => ((Prod.snd p).type, (Prod.snd p).value))

/-- Engine expression-memory bookkeeping events attributable to one builder. -/
inductive MemOp where
  | install (id : Nat)
  | deinstall (id : Nat)
  | reclaimList (ids : List Nat)
deriving DecidableEq

/-- Install events emitted while building, in order. -/
def installTrace (st : BuildState) : List MemOp :=
  st.installs.map MemOp.install

/-- Node ids unregistered by deinstallExpression on the function reference:
the walk of its argument chain. -/
def deinstalledIds (st : BuildState) : List Nat :=
  (chainFrom st.heap st.heap.length st.fb.refArgList).map Prod.fst

/-- Modelled from the spec: the engine primitives ExpressionDeinstall and
ReturnExpression called by the destructor (Environment.cc lines 363-370) are
not part of this repository; per the boundary contract
(install/deinstall/reclaim expression nodes) deinstallExpression on the
function reference unregisters every node reachable through its argList
exactly once, and reclaimExpressionList then returns that chain to the engine.
The destructor performs exactly these two calls, in this order, then nulls its
pointers. -/
def destructorTrace (st : BuildState) : List MemOp :=
  (deinstalledIds st).map MemOp.deinstall
    ++ [MemOp.reclaimList (deinstalledIds st)]

/-- Appending of one rendered argument to the command stream inside
FunctionBuilder::invoke (Environment.cc lines 452-495): the local
installArgument closure writes a space, the opening text, the body, the
closing text and a space; the installAddress closure renders label<0x, the
pointer in hexadecimal, and >.  The switch dispatches on the node type, with
FACT_ADDRESS and every unlisted tag falling to the default case.  The showD
parameter models the C++ stream formatting of a double. -/
def renderImplStep (showD : Nat → String) (command : String) (args : ExprNode) :
    String :=
  let app := fun (pre body suf : String) => command ++ " " ++ pre ++ body ++ suf ++ " "
  let addr := fun (ty : String) (v : CVal) =>
    app (ty ++ "<0x") (hexOfNat (valueAddr v)) ">"
  if args.type = STRING then app "\"" (valueToString args.value) "\""
  else if args.type = SYMBOL then app "" (valueToString args.value) ""
  else if args.type = INSTANCE_NAME then app "[" (valueToString args.value) "]"
  else if args.type = INTEGER then app "" (toString (valueToInt args.value)) ""
  else if args.type = FLOAT then app "" (showD (valueToFlt args.value)) ""
  else if args.type = INSTANCE_ADDRESS then addr "InstanceAddress" args.value
  else if args.type = EXTERNAL_ADDRESS then addr "ExternalAddress" args.value
  else if args.type = MULTIFIELD then addr "MULTIFIELD" args.value
  else addr "UNKNOWN_TYPE" args.value

/-- FunctionBuilder::invoke (Environment.cc lines 447-503): throw the misuse
Problem when no function is set; otherwise evaluate the assembled reference
(the evalResult oracle models evaluateExpression, none meaning an evaluation
error and some ret the populated out parameter).  On success return the
result; on failure rebuild the attempted call textually by walking the
argument chain and throw the InvocationError Problem. -/
def invoke (showD : Nat → String) (evalResult : Option DataObject)
    (st : BuildState) : Except Problem DataObject :=
  if !st.fb.functionReferenceSet then
    Except.error (Problem.mk builderMisuseInvokeMsg)
  else
    match evalResult with
    | some ret => Except.ok ret
    | none =>
      let chain := (chainFrom st.heap st.heap.length st.fb.refArgList).map Prod.snd
      let command :=
        chain.foldl (renderImplStep showD) ("(" ++ st.fb.functionName ++ " ") ++ ")"
      Except.error (Problem.mk ("ERROR: invocation of " ++ command ++ " yielded an error!"))

/-- Rendering of one argument node as the claim describes it: string tags
quoted with double quotes, symbol tags bare, instance-name tags in square
brackets, integer and float tags as their literal numeric form, and
instance-address, external-address, multifield and unrecognized tags as a tag
label followed by the pointer in hexadecimal, label<0xhex>.  Stated from the
specification wording, to be compared with the renderer of the source. -/
def specNodeText (showD : Nat → String) (n : ExprNode) : String :=
  if n.type = STRING then "\"" ++ valueToString n.value ++ "\""
  else if n.type = SYMBOL then valueToString n.value
  else if n.type = INSTANCE_NAME then "[" ++ valueToString n.value ++ "]"
  else if n.type = INTEGER then toString (valueToInt n.value)
  else if n.type = FLOAT then showD (valueToFlt n.value)
  else if n.type = INSTANCE_ADDRESS then
    "InstanceAddress" ++ "<0x" ++ hexOfNat (valueAddr n.value) ++ ">"
  else if n.type = EXTERNAL_ADDRESS then
    "ExternalAddress" ++ "<0x" ++ hexOfNat (valueAddr n.value) ++ ">"
  else if n.type = MULTIFIELD then
    "MULTIFIELD" ++ "<0x" ++ hexOfNat (valueAddr n.value) ++ ">"
  else "UNKNOWN_TYPE" ++ "<0x" ++ hexOfNat (valueAddr n.value) ++ ">"

/-- Diagnostic reconstruction of the whole call in the shape the claim states:
the function name and each argument node rendered per its tag, each argument
set off by the single spaces the command stream inserts. -/
def specCallText (showD : Nat → String) (fn : String) (nodes : List ExprNode) :
    String :=
  "(" ++ fn ++ " "
    ++ String.join (nodes.map (fun n => " " ++ specNodeText showD n ++ " "))
    ++ ")"

/-- Constant nodes of the given (type, value) pairs, disregarding chain links,
used to state rendering claims over chain contents. -/
def constNodes (args : List (Nat × CVal)) : List ExprNode :=
  args.map (fun p => { type := p.1, value := p.2, nextArg := none })

/-- Environment (Environment.h lines 566-568): the reclaim ownership flag and
the raw engine pointer, modelled as a numeric handle. -/
structure Environment where
  reclaim : Bool
  env : Nat
deriving DecidableEq

/-- Owning constructor Environment() (Environment.cc line 31): reclaim is
true and env is the instance CreateEnvironment produced. -/
def Environment.owning (raw : Nat) : Environment :=
  { reclaim := true, env := raw }

/-- Borrowing constructor Environment(void*) (Environment.cc line 40):
reclaim is false and env is the supplied pointer. -/
def Environment.borrowed (raw : Nat) : Environment :=
  { reclaim := false, env := raw }

/-- Environment::getRawEnvironment (Environment.cc lines 146-150). -/
def getRawEnvironment (e : Environment) : Nat := e.env

/-- Per-type static cache std::map<void*, int> of ExternalAddressCache,
modelled as an association list with unique keys; keys are raw engine
pointers. -/
abbrev Cache : Type := List (Nat × Int)

/-- Lookup in the map, by key equality. -/
def mapFind : List (Nat × Int) → Nat → Option Int
  | [], _ => none
  | (k, v) :: rest, key => if k = key then some v else mapFind rest key

/-- std::map::emplace semantics: insert the pair only when the key is not
already present; an existing entry is left unchanged. -/
def mapEmplace (c : List (Nat × Int)) (k : Nat) (v : Int) : List (Nat × Int) :=
  match mapFind c k with
  | some _ => c
  | none => c ++ [(k, v)]

/-- Message thrown by ExternalAddressCache::getExternalAddressId when no entry
exists (Environment.h line 661); the UnregisteredTypeError of the spec. -/
def unregisteredTypeMsg : String :=
  "Attempted to get the external address index of something not registered from using an unregistered environment!"

/-- ExternalAddressCache<T>::getExternalAddressId (Environment.h lines
653-670): look up the raw environment pointer in the per-type cache; throw
when absent.  The cache argument is the static map of the host type T. -/
def getExternalAddressId (cache : Cache) (e : Environment) : Except Problem Int :=
  match mapFind cache (getRawEnvironment e) with
  | some found => Except.ok found
  | none => Except.error (Problem.mk unregisteredTypeMsg)

/-- ExternalAddressCache<T>::registerExternalAddressId (Environment.h lines
672-684): emplace the id under the raw environment pointer. -/
def registerExternalAddressId (cache : Cache) (e : Environment) (result : Int) :
    Cache :=
  mapEmplace cache (getRawEnvironment e) result

/-- externalAddressHashNode as read by the wrapper: the engine-assigned type
id and the wrapped host pointer. -/
structure ExtAddrNode where
  type : Int
  externalAddress : Nat
deriving DecidableEq

/-- Message thrown by Environment::fromExternalAddress on a tag mismatch
(Environment.h line 549); the TypeMismatchError of the spec.  The argument
models typeid(T).name(). -/
def typeMismatchMsg (tyName : String) : String :=
  "Attempted to cast external address to " ++ tyName ++ " when it is not tagged as such!"

/-- Environment::externalAddressIsOfType (Environment.h lines 530-534):
compare the embedded type tag of the value with the registered id of T, which
itself throws when T is unregistered. -/
def externalAddressIsOfType (cache : Cache) (e : Environment)
    (node : ExtAddrNode) : Except Problem Bool :=
  match getExternalAddressId cache e with
  | Except.ok i => Except.ok (decide (node.type = i))
  | Except.error p => Except.error p

/-- Environment::fromExternalAddress (Environment.h lines 542-553): when the
tag check passes return the wrapped pointer (DOPToExternalAddress), otherwise
throw the mismatch Problem. -/
def fromExternalAddress (cache : Cache) (e : Environment) (tyName : String)
    (node : ExtAddrNode) : Except Problem Nat :=
  match externalAddressIsOfType cache e node with
  | Except.error p => Except.error p
  | Except.ok true => Except.ok node.externalAddress
  | Except.ok false => Except.error (Problem.mk (typeMismatchMsg tyName))

/-- extractData into bool (Environment.cc lines 601-604): the value pointer
differs from the engine FALSE symbol and the tag is SYMBOL. -/
def extractDataBool (dobj : DataObject) : Bool :=
  (decide (dobj.value ≠ falseSymbol)) && (decide (dobj.type = SYMBOL))

/-- Environment::funcall with a result object (Environment.cc lines 55-71):
the callStatus oracle is the integer EnvFunctionCall returned and
engineResult the data object it populated; a non-zero status throws the
CallError Problem naming the call, a zero status returns the populated
object. -/
def funcall (callStatus : Int) (engineResult : DataObject)
    (functionName args : String) : Except Problem DataObject :=
  if callStatus ≠ 0 then
    Except.error (Problem.mk
      ("Function call of (" ++ functionName ++ " " ++ args ++ ") failed!"))
  else
    Except.ok engineResult

/-- Environment::funcall without a result (Environment.cc lines 75-80):
delegates to the three-argument overload on a scratch object and discards the
result; the status interpretation happens only inside funcall. -/
def funcallNoResult (callStatus : Int) (engineResult : DataObject)
    (functionName args : String) : Except Problem Unit :=
  match funcall callStatus engineResult functionName args with
  | Except.ok _ => Except.ok ()
  | Except.error p => Except.error p

/-- Environment::loadFile (Environment.cc lines 128-144): switch on the
tri-state EnvLoad result; -1 throws the parse Problem, 0 throws the load
Problem, and any other status falls through silently. -/
def loadFile (loadStatus : Int) (path : String) : Except Problem Unit :=
  if loadStatus = -1 then
    Except.error (Problem.mk ("Unable to parse file: " ++ path))
  else if loadStatus = 0 then
    Except.error (Problem.mk ("Unable to load file: " ++ path))
  else
    Except.ok ()

/-! Helper lemmas about the association-list model of std::map. -/

theorem mapFind_append (c d : List (Nat × Int)) (key : Nat) :
    mapFind (c ++ d) key =
      match mapFind c key with
      | some v => some v
      | none => mapFind d key := by
  induction c with
  | nil => rfl
  | cons p rest ih =>
    obtain ⟨a, b⟩ := p
    by_cases hak : a = key
    · simp [mapFind, hak]
    · simp [mapFind, hak, ih]

theorem mapFind_emplace_same (c : List (Nat × Int)) (k : Nat) (v : Int) :
    mapFind (mapEmplace c k v) k = some ((mapFind c k).getD v) := by
  cases h : mapFind c k with
  | some w => simp [mapEmplace, h]
  | none => simp [mapEmplace, h, mapFind_append, mapFind]

theorem mapFind_emplace_other (c : List (Nat × Int)) (k k2 : Nat) (v : Int)
    (hne : k2 ≠ k) : mapFind (mapEmplace c k v) k2 = mapFind c k2 := by
  cases h : mapFind c k with
  | some w => simp [mapEmplace, h]
  | none =>
    cases h2 : mapFind c k2 with
    | some w => simp [mapEmplace, h, mapFind_append, h2]
    | none =>
      simp [mapEmplace, h, mapFind_append, h2, mapFind]
      intro hh
      exact hne hh.symm

/-- Claim C5: lookup of the external-address id of a host type before any
registration for the engine instance fails with the UnregisteredTypeError
Problem; and for a registered type, fromExternalAddress returns the embedded
pointer exactly when the embedded type tag of the value equals the registered
id, and fails with the TypeMismatchError Problem whenever the tag differs. -/
theorem claim_C5 (cache : Cache) (e : Environment) :
    (mapFind cache (getRawEnvironment e) = none →
      getExternalAddressId cache e = Except.error (Problem.mk unregisteredTypeMsg))
    ∧ (∀ (id : Int) (node : ExtAddrNode) (tyName : String),
        mapFind cache (getRawEnvironment e) = some id →
        (fromExternalAddress cache e tyName node = Except.ok node.externalAddress
          ↔ node.type = id)
        ∧ (node.type ≠ id →
            fromExternalAddress cache e tyName node =
              Except.error (Problem.mk (typeMismatchMsg tyName)))) := by
  constructor
  · intro h
    simp [getExternalAddressId, h]
  · intro id node tyName h
    constructor
    · constructor
      · intro hc
        by_contra hne
        simp [fromExternalAddress, externalAddressIsOfType, getExternalAddressId,
          h, hne] at hc
      · intro he
        simp [fromExternalAddress, externalAddressIsOfType, getExternalAddressId,
          h, he]
    · intro hne
      simp [fromExternalAddress, externalAddressIsOfType, getExternalAddressId,
        h, hne]

theorem claim_C5_witness :
    (mapFind ([] : Cache) (getRawEnvironment (Environment.owning 9)) = none
      ∧ getExternalAddressId ([] : Cache) (Environment.owning 9) =
          Except.error (Problem.mk unregisteredTypeMsg))
    ∧ (mapFind ([(5, 3)] : Cache) (getRawEnvironment (Environment.borrowed 5)) = some 3
      ∧ fromExternalAddress ([(5, 3)] : Cache) (Environment.borrowed 5) "Widget"
          (ExtAddrNode.mk 3 77) = Except.ok 77
      ∧ ((2 : Int) ≠ 3
        ∧ fromExternalAddress ([(5, 3)] : Cache) (Environment.borrowed 5) "OtherType"
            (ExtAddrNode.mk 2 77) =
              Except.error (Problem.mk (typeMismatchMsg "OtherType")))) := by
  refine ⟨⟨rfl, (claim_C5 ([] : Cache) (Environment.owning 9)).1 rfl⟩,
    rfl,
    ((claim_C5 ([(5, 3)] : Cache) (Environment.borrowed 5)).2 3
      (ExtAddrNode.mk 3 77) "Widget" rfl).1.mpr rfl,
    by decide,
    ((claim_C5 ([(5, 3)] : Cache) (Environment.borrowed 5)).2 3
      (ExtAddrNode.mk 2 77) "OtherType" rfl).2 (by decide)⟩

/-- Claim C6 counterexample: registering id 1 and then id 2 for the same
engine instance and host type leaves lookup returning 1, not 2, because
std::map::emplace does not overwrite an existing entry; the claimed
last-write-wins behavior is refuted at this concrete input. -/
theorem claim_C6_counterexample :
    getExternalAddressId
        (registerExternalAddressId
          (registerExternalAddressId ([] : Cache) (Environment.owning 7) 1)
          (Environment.owning 7) 2)
        (Environment.owning 7) = Except.ok 1
    ∧ (Except.ok 1 : Except Problem Int) ≠ Except.ok 2 := by
  refine ⟨rfl, ?_⟩
  intro h
  simp at h

/-- Claim C6 as amended: for ids i1 then i2 registered in that order for the
same previously unregistered (engine instance, host type) pair, a subsequent
lookup returns i1 — the first registration wins and the second emplace is a
no-op. -/
theorem claim_C6 (c : Cache) (e : Environment) (i1 i2 : Int)
    (h : mapFind c (getRawEnvironment e) = none) :
    getExternalAddressId
        (registerExternalAddressId (registerExternalAddressId c e i1) e i2) e =
      Except.ok i1 := by
  have h1 : mapFind (mapEmplace c (getRawEnvironment e) i1) (getRawEnvironment e)
      = some i1 := by
    rw [mapFind_emplace_same, h]
    rfl
  have h2 : mapFind
      (mapEmplace (mapEmplace c (getRawEnvironment e) i1) (getRawEnvironment e) i2)
      (getRawEnvironment e) = some i1 := by
    rw [mapFind_emplace_same, h1]
    rfl
  simp [registerExternalAddressId, getExternalAddressId, h2]

theorem claim_C6_witness :
    mapFind ([] : Cache) (getRawEnvironment (Environment.owning 7)) = none
    ∧ getExternalAddressId
        (registerExternalAddressId
          (registerExternalAddressId ([] : Cache) (Environment.owning 7) 1)
          (Environment.owning 7) 2)
        (Environment.owning 7) = Except.ok 1 :=
  ⟨rfl, claim_C6 ([] : Cache) (Environment.owning 7) 1 2 rfl⟩

/-- Claim C10: the external-address registry is keyed by the raw engine
pointer.  After registering through one Environment wrapper, lookup succeeds
with the same id through every wrapper over the same raw pointer, owning or
borrowed; and lookup through a wrapper over a different raw pointer with no
registration for it fails with the UnregisteredTypeError Problem. -/
theorem claim_C10 (c : Cache) (e1 e2 e3 : Environment) (i : Int) :
    (getRawEnvironment e1 = getRawEnvironment e2 →
      ∃ j, getExternalAddressId (registerExternalAddressId c e1 i) e2 = Except.ok j
        ∧ getExternalAddressId (registerExternalAddressId c e1 i) e1 = Except.ok j)
    ∧ (getRawEnvironment e3 ≠ getRawEnvironment e1 →
        mapFind c (getRawEnvironment e3) = none →
        getExternalAddressId (registerExternalAddressId c e1 i) e3 =
          Except.error (Problem.mk unregisteredTypeMsg)) := by
  constructor
  · intro hsame
    refine ⟨(mapFind c (getRawEnvironment e1)).getD i, ?_, ?_⟩
    · simp [getExternalAddressId, registerExternalAddressId, ← hsame,
        mapFind_emplace_same]
    · simp [getExternalAddressId, registerExternalAddressId, mapFind_emplace_same]
  · intro hne hnone
    simp [getExternalAddressId, registerExternalAddressId,
      mapFind_emplace_other c (getRawEnvironment e1) (getRawEnvironment e3) i hne,
      hnone]

theorem claim_C10_witness :
    (getRawEnvironment (Environment.owning 4) = getRawEnvironment (Environment.borrowed 4)
      ∧ ∃ j, getExternalAddressId
            (registerExternalAddressId ([] : Cache) (Environment.owning 4) 9)
            (Environment.borrowed 4) = Except.ok j
          ∧ getExternalAddressId
              (registerExternalAddressId ([] : Cache) (Environment.owning 4) 9)
              (Environment.owning 4) = Except.ok j)
    ∧ getExternalAddressId
        (registerExternalAddressId ([] : Cache) (Environment.owning 4) 9)
        (Environment.borrowed 5) = Except.error (Problem.mk unregisteredTypeMsg) :=
  ⟨⟨rfl, (claim_C10 ([] : Cache) (Environment.owning 4) (Environment.borrowed 4)
      (Environment.borrowed 5) 9).1 rfl⟩,
    (claim_C10 ([] : Cache) (Environment.owning 4) (Environment.borrowed 4)
      (Environment.borrowed 5) 9).2 (by decide) rfl⟩

/-- Claim C7: extracting a boolean from a tagged value yields true exactly
when the tag is SYMBOL and the value differs from the engine FALSE symbol; in
particular any non-SYMBOL tag extracts as false regardless of the value. -/
theorem claim_C7 (d : DataObject) :
    (extractDataBool d = true ↔ (d.type = SYMBOL ∧ d.value ≠ falseSymbol))
    ∧ (d.type ≠ SYMBOL → extractDataBool d = false) := by
  constructor
  · simp [extractDataBool, and_comm]
  · intro h
    simp [extractDataBool, h]

theorem claim_C7_witness :
    INTEGER ≠ SYMBOL
    ∧ extractDataBool (DataObject.mk INTEGER (CVal.int 5) 0 0) = false :=
  ⟨by decide, (claim_C7 (DataObject.mk INTEGER (CVal.int 5) 0 0)).2 (by decide)⟩

/-- Claim C8: funcall returns normally with the populated result exactly when
the raw EnvFunctionCall status is zero; every non-zero status throws a Problem
whose message contains both the function name and the argument string; and the
result-discarding overload succeeds exactly when funcall does, interpreting no
status of its own. -/
theorem claim_C8 (callStatus : Int) (r : DataObject) (name args : String) :
    (funcall callStatus r name args = Except.ok r ↔ callStatus = 0)
    ∧ (callStatus ≠ 0 →
        funcall callStatus r name args =
          Except.error (Problem.mk
            ("Function call of (" ++ name ++ " " ++ args ++ ") failed!"))
        ∧ (∃ x y, "Function call of (" ++ name ++ " " ++ args ++ ") failed!"
            = x ++ name ++ y)
        ∧ (∃ x y, "Function call of (" ++ name ++ " " ++ args ++ ") failed!"
            = x ++ args ++ y))
    ∧ (funcallNoResult callStatus r name args = Except.ok () ↔ callStatus = 0) := by
  refine ⟨⟨?_, ?_⟩, ?_, ⟨?_, ?_⟩⟩
  · intro h
    by_contra hs
    simp [funcall, hs] at h
  · intro h
    simp [funcall, h]
  · intro h
    refine ⟨by simp [funcall, h], ?_, ?_⟩
    · exact ⟨"Function call of (", " " ++ args ++ ") failed!",
        by simp [String.append_assoc]⟩
    · exact ⟨"Function call of (" ++ name ++ " ", ") failed!",
        by simp [String.append_assoc]⟩
  · intro h
    by_contra hs
    simp [funcallNoResult, funcall, hs] at h
  · intro h
    simp [funcallNoResult, funcall, h]

theorem claim_C8_witness :
    ((1 : Int) ≠ 0
      ∧ funcall 1 (DataObject.mk INTEGER (CVal.int 5) 0 0) "+" "2 3" =
          Except.error (Problem.mk
            ("Function call of (" ++ "+" ++ " " ++ "2 3" ++ ") failed!")))
    ∧ funcall 0 (DataObject.mk INTEGER (CVal.int 5) 0 0) "+" "2 3" =
        Except.ok (DataObject.mk INTEGER (CVal.int 5) 0 0) :=
  ⟨⟨by decide, ((claim_C8 1 (DataObject.mk INTEGER (CVal.int 5) 0 0) "+" "2 3").2.1
      (by decide)).1⟩,
    (claim_C8 0 (DataObject.mk INTEGER (CVal.int 5) 0 0) "+" "2 3").1.mpr rfl⟩

/-- Claim C9: loadFile dispatches on the tri-state EnvLoad result: -1 throws
the parse Problem carrying the path, 0 throws the load Problem carrying the
path, and every other status returns silently. -/
theorem claim_C9 (loadStatus : Int) (path : String) :
    (loadStatus = -1 →
      loadFile loadStatus path =
        Except.error (Problem.mk ("Unable to parse file: " ++ path)))
    ∧ (loadStatus = 0 →
      loadFile loadStatus path =
        Except.error (Problem.mk ("Unable to load file: " ++ path)))
    ∧ (loadStatus ≠ -1 → loadStatus ≠ 0 → loadFile loadStatus path = Except.ok ()) := by
  refine ⟨?_, ?_, ?_⟩
  · intro h
    simp [loadFile, h]
  · intro h
    simp [loadFile, h]
  · intro h1 h2
    simp [loadFile, h1, h2]

theorem claim_C9_witness :
    loadFile (-1) "rules.clp" =
      Except.error (Problem.mk ("Unable to parse file: " ++ "rules.clp"))
    ∧ loadFile 0 "rules.clp" =
        Except.error (Problem.mk ("Unable to load file: " ++ "rules.clp"))
    ∧ loadFile 1 "rules.clp" = Except.ok () :=
  ⟨(claim_C9 (-1) "rules.clp").1 rfl, (claim_C9 0 "rules.clp").2.1 rfl,
    (claim_C9 1 "rules.clp").2.2 (by decide) (by decide)⟩

/-- Claim C2: on a builder whose function reference was never set, every
installArgument and addArgument call fails with the BuilderMisuseError
Problem, invoke fails with the BuilderMisuseError Problem for every possible
engine evaluation outcome (so nothing is evaluated and nothing crashes), and
setFunctionReference with a name the engine cannot resolve fails with the
UnknownFunctionError Problem naming that function while the builder stays
unbound (the throw happens before any state change, so the unbound state is
unchanged). -/
theorem claim_C2 :
    (∀ (ty : Nat) (v : CVal),
      installArgument FunctionBuilder.init ty v =
        Except.error (Problem.mk builderMisuseArgsMsg))
    ∧ (∀ a : HostArg,
        addArgumentHost FunctionBuilder.init a =
          Except.error (Problem.mk builderMisuseArgsMsg))
    ∧ (∀ (showD : Nat → String) (evalResult : Option DataObject),
        invoke showD evalResult FunctionBuilder.init =
          Except.error (Problem.mk builderMisuseInvokeMsg))
    ∧ (∀ (resolve : String → Bool) (f : String), resolve f = false →
        setFunctionReference resolve FunctionBuilder.init f =
          Except.error (Problem.mk (unknownFunctionMsg f))
        ∧ (∃ x y, unknownFunctionMsg f = x ++ f ++ y)
        ∧ FunctionBuilder.init.fb.functionReferenceSet = false) := by
  refine ⟨?_, ?_, ?_, ?_⟩
  · intro ty v
    simp [installArgument, FunctionBuilder.init]
  · intro a
    simp [addArgumentHost, installArgument, FunctionBuilder.init]
  · intro showD evalResult
    simp [invoke, FunctionBuilder.init]
  · intro resolve f h
    refine ⟨by simp [setFunctionReference, h], ?_, rfl⟩
    exact ⟨"Function ", " does not exist!!!!",
      by simp [unknownFunctionMsg, String.append_assoc]⟩

theorem claim_C2_witness :
    installArgument FunctionBuilder.init SYMBOL (CVal.sym "x") =
      Except.error (Problem.mk builderMisuseArgsMsg)
    ∧ addArgumentHost FunctionBuilder.init (HostArg.i64 4) =
        Except.error (Problem.mk builderMisuseArgsMsg)
    ∧ invoke (fun _ => "") none FunctionBuilder.init =
        Except.error (Problem.mk builderMisuseInvokeMsg)
    ∧ ((fun _ => false : String → Bool) "no-such-function" = false
      ∧ setFunctionReference (fun _ => false) FunctionBuilder.init "no-such-function" =
          Except.error (Problem.mk (unknownFunctionMsg "no-such-function"))) :=
  ⟨claim_C2.1 SYMBOL (CVal.sym "x"), claim_C2.2.1 (HostArg.i64 4),
    claim_C2.2.2.1 (fun _ => "") none,
    rfl, (claim_C2.2.2.2 (fun _ => false) "no-such-function" rfl).1⟩

/-! Helper lemmas about the sequential layout of the argument chain. -/

theorem layoutNodes_length (args : List (Nat × CVal)) :
    ∀ i, (layoutNodes args i).length = args.length := by
  induction args with
  | nil => intro i; rfl
  | cons a as ih =>
    intro i
    cases as with
    | nil => rfl
    | cons b bs => simp [layoutNodes, ih (i + 1)]

theorem layoutNodes_snoc (x : Nat × CVal) :
    ∀ (args : List (Nat × CVal)) (i : Nat), args ≠ [] →
      setNextArg (layoutNodes args i ++ [{ type := x.1, value := x.2, nextArg := none }])
          (args.length - 1) (i + args.length)
        = layoutNodes (args ++ [x]) i := by
  intro args
  induction args with
  | nil => intro i h; exact absurd rfl h
  | cons a as ih =>
    intro i _
    cases as with
    | nil => simp [layoutNodes, setNextArg]
    | cons b bs =>
      have ihh := ih (i + 1) (by simp)
      simp only [layoutNodes, List.cons_append, List.length_cons,
        Nat.succ_sub_one, setNextArg]
      congr 1
      have harith : i + (bs.length + 1 + 1) = i + 1 + (b :: bs).length := by
        simp only [List.length_cons]
        omega
      rw [harith]
      simpa using ihh

theorem get_append_mid (pre : List ExprNode) (n : ExprNode) (rest : List ExprNode) :
    (pre ++ n :: rest).get? pre.length = some n := by
  induction pre with
  | nil => rfl
  | cons p ps ih => simpa using ih

theorem chainFrom_none (h : List ExprNode) (fuel : Nat) :
    chainFrom h fuel none = [] := by
  cases fuel <;> rfl

theorem chainFrom_cons_step (h : List ExprNode) (fuel i : Nat) (n : ExprNode)
    (hget : h.get? i = some n) :
    chainFrom h (fuel + 1) (some i) = (i, n) :: chainFrom h fuel n.nextArg := by
  simp only [chainFrom, hget]

theorem chainFrom_layout :
    ∀ (args : List (Nat × CVal)) (pre : List ExprNode) (fuel : Nat),
      args.length ≤ fuel → args ≠ [] →
      chainFrom (pre ++ layoutNodes args pre.length) fuel (some pre.length)
        = layoutChain args pre.length := by
  intro args
  induction args with
  | nil => intro pre fuel _ h; exact absurd rfl h
  | cons a as ih =>
    intro pre fuel hle _
    cases fuel with
    | zero => simp at hle
    | succ f =>
      cases as with
      | nil =>
        have hstep := chainFrom_cons_step (pre ++ [ExprNode.mk a.1 a.2 none]) f
          pre.length (ExprNode.mk a.1 a.2 none)
          (get_append_mid pre (ExprNode.mk a.1 a.2 none) [])
        rw [show layoutNodes [a] pre.length = [ExprNode.mk a.1 a.2 none] from rfl]
        rw [hstep]
        rw [show (ExprNode.mk a.1 a.2 none).nextArg = none from rfl]
        rw [chainFrom_none]
        rfl
      | cons b bs =>
        have hl : layoutNodes (a :: b :: bs) pre.length
            = ExprNode.mk a.1 a.2 (some (pre.length + 1))
              :: layoutNodes (b :: bs) (pre.length + 1) := rfl
        have hg : (pre ++ layoutNodes (a :: b :: bs) pre.length).get? pre.length
            = some (ExprNode.mk a.1 a.2 (some (pre.length + 1))) := by
          rw [hl]
          exact get_append_mid pre _ _
        have ihh := ih (pre ++ [ExprNode.mk a.1 a.2 (some (pre.length + 1))]) f
          (Nat.le_of_succ_le_succ hle) (by simp)
        have hplen : (pre ++ [ExprNode.mk a.1 a.2 (some (pre.length + 1))]).length
            = pre.length + 1 := by
          simp
        rw [hplen] at ihh
        have happ : (pre ++ [ExprNode.mk a.1 a.2 (some (pre.length + 1))])
            ++ layoutNodes (b :: bs) (pre.length + 1)
            = pre ++ layoutNodes (a :: b :: bs) pre.length := by
          rw [hl]
          simp
        rw [happ] at ihh
        have hstep := chainFrom_cons_step (pre ++ layoutNodes (a :: b :: bs) pre.length)
          f pre.length (ExprNode.mk a.1 a.2 (some (pre.length + 1))) hg
        rw [hstep]
        rw [show (ExprNode.mk a.1 a.2 (some (pre.length + 1))).nextArg
          = some (pre.length + 1) from rfl]
        rw [ihh]
        rfl

theorem layoutChain_fst (args : List (Nat × CVal)) :
    ∀ i, (layoutChain args i).map Prod.fst = List.range' i args.length := by
  induction args with
  | nil => intro i; rfl
  | cons a as ih =>
    intro i
    cases as with
    | nil => rfl
    | cons b bs => simp [layoutChain, List.range', ih (i + 1)]

theorem layoutChain_snd (args : List (Nat × CVal)) :
    ∀ i, (layoutChain args i).map Prod.snd = layoutNodes args i := by
  induction args with
  | nil => intro i; rfl
  | cons a as ih =>
    intro i
    cases as with
    | nil => rfl
    | cons b bs => simp [layoutChain, layoutNodes, ih (i + 1)]

theorem layoutNodes_vals (args : List (Nat × CVal)) :
    ∀ i, (layoutNodes args i).map (fun n => (n.type, n.value)) = args := by
  induction args with
  | nil => intro i; rfl
  | cons a as ih =>
    intro i
    cases as with
    | nil => simp [layoutNodes]
    | cons b bs => simp [layoutNodes, ih (i + 1)]

theorem chainVals_built (fn : String) (m : List (Nat × CVal)) :
    chainVals (builtState fn m) = m := by
  cases m with
  | nil => rfl
  | cons a as =>
    have h := chainFrom_layout (a :: as) [] ((layoutNodes (a :: as) 0).length)
      (by rw [layoutNodes_length]) (by simp)
    simp only [List.nil_append, List.length_nil] at h
    show (chainFrom (layoutNodes (a :: as) 0) (layoutNodes (a :: as) 0).length
      (some 0)).map (fun p => ((Prod.snd p).type, (Prod.snd p).value)) = a :: as
    rw [h]
    rw [show (fun (p : Nat × ExprNode) => ((Prod.snd p).type, (Prod.snd p).value))
      = (fun (n : ExprNode) => (n.type, n.value)) ∘ Prod.snd from rfl]
    rw [← List.map_map, layoutChain_snd, layoutNodes_vals]

theorem installArgument_built (fn : String) (args : List (Nat × CVal))
    (ty : Nat) (v : CVal) :
    installArgument (builtState fn args) ty v
      = Except.ok (builtState fn (args ++ [(ty, v)])) := by
  cases args with
  | nil => rfl
  | cons a as =>
    have hsnoc := layoutNodes_snoc (ty, v) (a :: as) 0 (by simp)
    simp only [List.length_cons, Nat.succ_sub_one, Nat.zero_add] at hsnoc
    simp [installArgument, builtState, layoutNodes_length, List.range_succ, hsnoc]

theorem addArgumentHost_built (fn : String) (args : List (Nat × CVal)) (a : HostArg) :
    addArgumentHost (builtState fn args) a
      = Except.ok (builtState fn (args ++ [convertArg a])) := by
  simp only [addArgumentHost]
  rw [installArgument_built]

mutual
theorem addArg_built (fn : String) :
    ∀ (t : Arg) (args : List (Nat × CVal)),
      addArg (builtState fn args) t
        = Except.ok (builtState fn (args ++ (flattenArg t).map convertArg))
  | Arg.scalar a, args => by
    rw [addArg, flattenArg]
    simp [addArgumentHost_built]
  | Arg.seq l, args => by
    rw [addArg, flattenArg]
    exact addArgs_built fn l args
theorem addArgs_built (fn : String) :
    ∀ (l : ArgList) (args : List (Nat × CVal)),
      addArgs (builtState fn args) l
        = Except.ok (builtState fn (args ++ (flattenArgs l).map convertArg))
  | ArgList.nil, args => by
    rw [addArgs, flattenArgs]
    simp
  | ArgList.cons t rest, args => by
    rw [addArgs, flattenArgs]
    rw [addArg_built fn t args]
    show addArgs (builtState fn (args ++ List.map convertArg (flattenArg t))) rest
      = Except.ok (builtState fn
          (args ++ List.map convertArg (flattenArg t ++ flattenArgs rest)))
    rw [addArgs_built fn rest (args ++ (flattenArg t).map convertArg)]
    simp [List.append_assoc]
end

theorem flattenArgs_scalarSeq : ∀ m : List HostArg, flattenArgs (scalarSeq m) = m := by
  intro m
  induction m with
  | nil => rfl
  | cons a rest ih => simp [scalarSeq, flattenArgs, flattenArg, ih]

/-- Claim C3: on a builder in the FunctionSet state, installArgument appends
exactly one converted constant node at the tail of the chain via the tracked
tail pointer (the resulting state is the sequential layout of the old
arguments followed by the new one, so earlier nodes keep their contents);
every scalar addArgument appends its converted constant; a sequence of
addArgument calls produces exactly the converted constants in order,
recursively flattened for nested ordered sequences, and equals calling
addArgument on each flattened element in iteration order; and reading the
resulting chain back yields exactly those (type, value) constants in order. -/
theorem claim_C3 (fn : String) :
    (∀ (args : List (Nat × CVal)) (ty : Nat) (v : CVal),
      installArgument (builtState fn args) ty v
        = Except.ok (builtState fn (args ++ [(ty, v)])))
    ∧ (∀ (args : List (Nat × CVal)) (a : HostArg),
        addArgumentHost (builtState fn args) a
          = Except.ok (builtState fn (args ++ [convertArg a])))
    ∧ (∀ l : ArgList,
        addArgs (builtState fn []) l
          = Except.ok (builtState fn ((flattenArgs l).map convertArg)))
    ∧ (∀ l : ArgList,
        addArgs (builtState fn []) l
          = addArgs (builtState fn []) (scalarSeq (flattenArgs l)))
    ∧ (∀ m : List (Nat × CVal), chainVals (builtState fn m) = m) := by
  refine ⟨installArgument_built fn, addArgumentHost_built fn, ?_, ?_, chainVals_built fn⟩
  · intro l
    have h := addArgs_built fn l []
    simpa using h
  · intro l
    rw [addArgs_built fn l [], addArgs_built fn (scalarSeq (flattenArgs l)) []]
    rw [flattenArgs_scalarSeq]

theorem deinstalledIds_built (fn : String) (args : List (Nat × CVal)) :
    deinstalledIds (builtState fn args) = List.range args.length := by
  cases args with
  | nil => rfl
  | cons a as =>
    have h := chainFrom_layout (a :: as) [] ((layoutNodes (a :: as) 0).length)
      (by rw [layoutNodes_length]) (by simp)
    simp only [List.nil_append, List.length_nil] at h
    show (chainFrom (layoutNodes (a :: as) 0) (layoutNodes (a :: as) 0).length
      (some 0)).map Prod.fst = List.range (a :: as).length
    rw [h, layoutChain_fst, ← List.range_eq_range']

theorem count_map_deinstall (ids : List Nat) (id : Nat) :
    (ids.map MemOp.deinstall).count (MemOp.deinstall id) = ids.count id := by
  induction ids with
  | nil => rfl
  | cons a as ih => simp [List.count_cons, ih]

theorem count_map_install (ids : List Nat) (id : Nat) :
    (ids.map MemOp.install).count (MemOp.install id) = ids.count id := by
  induction ids with
  | nil => rfl
  | cons a as ih => simp [List.count_cons, ih]

/-- Teardown balance on the bound path: for every state the builder reaches
by installing arguments after binding a function, the destructor trace
deinstalls the nodes of the function-reference argument chain first and
reclaims the chain only afterwards, the deinstalled ids are exactly the ids
the builder installed, each installed once and deinstalled exactly once, and
a node the builder never installed is never deinstalled.  The trace is a
function of the final builder state alone and invoke does not change that
state, so the balance holds on the success path and on error paths thrown
after binding.  The unbound death path is NOT covered: there the source
tears down an indeterminate reference, see the code-bug evaluation below. -/
theorem boundTeardown_balance (fn : String) (args : List (Nat × CVal)) :
    (∃ ids, destructorTrace (builtState fn args)
        = ids.map MemOp.deinstall ++ [MemOp.reclaimList ids]
      ∧ ids = (builtState fn args).installs)
    ∧ (∀ id, id ∈ (builtState fn args).installs →
        (installTrace (builtState fn args)).count (MemOp.install id) = 1
        ∧ (destructorTrace (builtState fn args)).count (MemOp.deinstall id) = 1)
    ∧ (∀ id, id ∉ (builtState fn args).installs →
        (destructorTrace (builtState fn args)).count (MemOp.deinstall id) = 0) := by
  have hd : deinstalledIds (builtState fn args) = List.range args.length :=
    deinstalledIds_built fn args
  have hi : (builtState fn args).installs = List.range args.length := rfl
  have hsingle : ∀ (id : Nat) (ids : List Nat),
      ([MemOp.reclaimList ids].count (MemOp.deinstall id)) = 0 := by
    intro id ids
    apply List.count_eq_zero.mpr
    simp
  refine ⟨⟨deinstalledIds (builtState fn args), rfl, by rw [hd, hi]⟩, ?_, ?_⟩
  · intro id hmem
    rw [hi] at hmem
    constructor
    · show ((builtState fn args).installs.map MemOp.install).count (MemOp.install id) = 1
      rw [hi, count_map_install]
      exact List.count_eq_one_of_mem (List.nodup_range args.length) hmem
    · show ((deinstalledIds (builtState fn args)).map MemOp.deinstall
          ++ [MemOp.reclaimList (deinstalledIds (builtState fn args))]).count
            (MemOp.deinstall id) = 1
      rw [List.count_append, hsingle, hd, count_map_deinstall]
      rw [List.count_eq_one_of_mem (List.nodup_range args.length) hmem]
  · intro id hmem
    rw [hi] at hmem
    show ((deinstalledIds (builtState fn args)).map MemOp.deinstall
        ++ [MemOp.reclaimList (deinstalledIds (builtState fn args))]).count
          (MemOp.deinstall id) = 0
    rw [List.count_append, hsingle, hd, count_map_deinstall]
    rw [List.count_eq_zero.mpr hmem]

theorem boundTeardown_balance_example :
    (0 : Nat) ∈ (builtState "f" [(2, CVal.sym "a")]).installs
    ∧ (installTrace (builtState "f" [(2, CVal.sym "a")])).count (MemOp.install 0) = 1
    ∧ (destructorTrace (builtState "f" [(2, CVal.sym "a")])).count (MemOp.deinstall 0) = 1
    ∧ ((7 : Nat) ∉ (builtState "f" [(2, CVal.sym "a")]).installs
      ∧ (destructorTrace (builtState "f" [(2, CVal.sym "a")])).count (MemOp.deinstall 7) = 0) :=
  ⟨by decide,
    ((boundTeardown_balance "f" [(2, CVal.sym "a")]).2.1 0 (by decide)).1,
    ((boundTeardown_balance "f" [(2, CVal.sym "a")]).2.1 0 (by decide)).2,
    by decide,
    (boundTeardown_balance "f" [(2, CVal.sym "a")]).2.2 7 (by decide)⟩

/-- Claim C1 code bug, evaluated at the failing input: a builder constructed
and destroyed without setFunctionReference (for instance after the
BuilderMisuseError thrown by invoke) runs the destructor on the indeterminate
_ref, which Environment.cc lines 363-370 deinstall and reclaim
unconditionally.  Under the possible indeterminate content in which the junk
argument-list pointer aliases an engine-owned node, the destructor deinstalls
and reclaims a node the builder never installed: the deinstall count of that
node is 1 while its install count and the whole install trace of the builder
are 0 and empty, a release without a matching install, refuting the zero-net
no-double-release guarantee on that exit path. -/
theorem claim_C1_code_bug :
    (destructorTrace (unboundBuilder [ExprNode.mk SYMBOL (CVal.sym "x") none]
        (some 0) none)).count (MemOp.deinstall 0) = 1
    ∧ (installTrace (unboundBuilder [ExprNode.mk SYMBOL (CVal.sym "x") none]
        (some 0) none)).count (MemOp.install 0) = 0
    ∧ (unboundBuilder [ExprNode.mk SYMBOL (CVal.sym "x") none]
        (some 0) none).installs = [] := by
  refine ⟨rfl, rfl, rfl⟩

theorem join_cons (s : String) (l : List String) :
    String.join (s :: l) = s ++ String.join l := by
  apply String.ext
  rw [String.join_eq, String.join_eq]
  simp [String.data_append]

theorem renderImplStep_spec (showD : Nat → String) (command : String) (n : ExprNode) :
    renderImplStep showD command n = command ++ (" " ++ specNodeText showD n ++ " ") := by
  simp only [renderImplStep, specNodeText]
  split_ifs <;>
    (simp [String.append_assoc, String.append_empty, String.empty_append]; try rfl)

theorem foldl_render (showD : Nat → String) (nodes : List ExprNode) :
    ∀ init, nodes.foldl (renderImplStep showD) init
      = init ++ String.join (nodes.map (fun n => " " ++ specNodeText showD n ++ " ")) := by
  induction nodes with
  | nil =>
    intro init
    show init = init ++ String.join []
    rw [show String.join ([] : List String) = "" from rfl, String.append_empty]
  | cons n rest ih =>
    intro init
    show rest.foldl (renderImplStep showD) (renderImplStep showD init n)
      = init ++ String.join (((n :: rest).map (fun m => " " ++ specNodeText showD m ++ " ")))
    rw [ih (renderImplStep showD init n), renderImplStep_spec]
    rw [List.map_cons, join_cons, String.append_assoc]

theorem chainNodes_built (fn : String) (args : List (Nat × CVal)) :
    (chainFrom (builtState fn args).heap (builtState fn args).heap.length
      (builtState fn args).fb.refArgList).map Prod.snd = layoutNodes args 0 := by
  cases args with
  | nil => rfl
  | cons a as =>
    have h := chainFrom_layout (a :: as) [] ((layoutNodes (a :: as) 0).length)
      (by rw [layoutNodes_length]) (by simp)
    simp only [List.nil_append, List.length_nil] at h
    show (chainFrom (layoutNodes (a :: as) 0) (layoutNodes (a :: as) 0).length
      (some 0)).map Prod.snd = layoutNodes (a :: as) 0
    rw [h, layoutChain_snd]

theorem specNodeText_nextArg (showD : Nat → String) (ty : Nat) (v : CVal)
    (x : Option Nat) :
    specNodeText showD (ExprNode.mk ty v x) = specNodeText showD (ExprNode.mk ty v none) := rfl

theorem map_spec_layout (showD : Nat → String) (args : List (Nat × CVal)) :
    ∀ i, (layoutNodes args i).map (fun n => " " ++ specNodeText showD n ++ " ")
      = args.map (fun p => " " ++ specNodeText showD (ExprNode.mk p.1 p.2 none) ++ " ") := by
  induction args with
  | nil => intro i; rfl
  | cons a as ih =>
    intro i
    cases as with
    | nil => rfl
    | cons b bs =>
      show (" " ++ specNodeText showD (ExprNode.mk a.1 a.2 (some (i + 1))) ++ " ")
          :: (layoutNodes (b :: bs) (i + 1)).map (fun n => " " ++ specNodeText showD n ++ " ")
        = (" " ++ specNodeText showD (ExprNode.mk a.1 a.2 none) ++ " ")
          :: (b :: bs).map (fun p => " " ++ specNodeText showD (ExprNode.mk p.1 p.2 none) ++ " ")
      rw [specNodeText_nextArg showD a.1 a.2 (some (i + 1)), ih (i + 1)]

/-- Claim C4: on a builder in the FunctionSet state with any argument chain,
invoke returns the populated result and throws nothing when the engine
evaluation succeeds; when the evaluation reports an error it throws the
InvocationError Problem whose message contains the textual reconstruction of
the call built by walking the argument chain and rendering each node by tag
exactly as the claim states it (specNodeText: strings quoted, symbols bare,
instance names bracketed, integers and floats in literal numeric form, and
instance-address, external-address, multifield and unrecognized tags as the
tag label followed by the pointer in hexadecimal inside angle brackets). -/
theorem claim_C4 (showD : Nat → String) (fn : String) (args : List (Nat × CVal))
    (ret : DataObject) :
    invoke showD (some ret) (builtState fn args) = Except.ok ret
    ∧ invoke showD none (builtState fn args)
      = Except.error (Problem.mk ("ERROR: invocation of "
          ++ specCallText showD fn (constNodes args) ++ " yielded an error!")) := by
  constructor
  · rfl
  · show Except.error (Problem.mk ("ERROR: invocation of "
        ++ (((chainFrom (builtState fn args).heap (builtState fn args).heap.length
              (builtState fn args).fb.refArgList).map Prod.snd).foldl
              (renderImplStep showD) ("(" ++ fn ++ " ") ++ ")")
        ++ " yielded an error!"))
      = Except.error (Problem.mk ("ERROR: invocation of "
          ++ specCallText showD fn (constNodes args) ++ " yielded an error!"))
    rw [chainNodes_built fn args, foldl_render, map_spec_layout]
    simp only [specCallText, constNodes, List.map_map, String.append_assoc]
    rfl

end Neutron
